import Mathlib

/-
  Shallow embedding of the Restaurant-Booking-App (FastAPI + SQLAlchemy) service.

  The data model follows src/app/models.py; the handlers follow
  src/app/routers/booking.py, availability.py, advanced_booking.py,
  reviews.py and user.py.  Database tables are lists of rows; a SQLAlchemy
  query chain `db.query(T).filter(...).first()` becomes `List.find?`,
  `.all()` becomes `List.filter`, `.count()` becomes `(List.filter _).length`,
  and a committed row mutation becomes replacement of the first matching
  element of the list.  HTTP errors and uncaught Python exceptions are the
  `PyExc` type; a handler returns its response together with the database
  state after the request (errors raised before any mutation leave the
  state unchanged, matching the source where every raise precedes the
  first setattr/commit of the handler).
-/

namespace RB

/-- Python exceptions that the routers can surface: `http` is
fastapi.HTTPException (a subclass of Exception), the others are ordinary
Python exceptions that, when uncaught, FastAPI turns into a 500 response. -/
inductive PyExc where
  | http (code : Nat) (detail : String)
  | attrError (attr : String)
  | keyError (key : String)
deriving DecidableEq, Repr

/-- users table (models.py User); only the columns the routers read. -/
structure User where
  id : Nat
  username : String
  email : String
  first_name : Option String
  last_name : Option String
  phone : Option String
  is_active : Bool
deriving DecidableEq, Repr

/-- restaurants table (models.py Restaurant); the routers only read id and name. -/
structure Restaurant where
  id : Nat
  name : String
deriving DecidableEq, Repr

/-- customers table (models.py Customer); columns written by create_booking_with_stripe. -/
structure Customer where
  id : Nat
  user_id : Option Nat
  title : Option String
  first_name : Option String
  surname : Option String
  email : Option String
  mobile : Option String
deriving DecidableEq, Repr

/-- bookings table (models.py Booking).  Dates and times are modelled as
ordinals (Nat): the routers only compare them for equality and order. -/
structure Booking where
  id : Nat
  booking_reference : String
  restaurant_id : Nat
  customer_id : Nat
  user_id : Option Nat
  visit_date : Nat
  visit_time : Nat
  party_size : Int
  channel_code : String
  special_requests : Option String
  is_leave_time_confirmed : Bool
  room_number : Option String
  status : String
  cancellation_reason_id : Option Nat
  created_at : Nat
  updated_at : Nat
deriving DecidableEq, Repr

/-- availability_slots table (models.py AvailabilitySlot). -/
structure AvailabilitySlot where
  id : Nat
  restaurant_id : Nat
  date : Nat
  time : Nat
  max_party_size : Int
  available : Bool
deriving DecidableEq, Repr

/-- cancellation_reasons table (models.py CancellationReason). -/
structure CancellationReason where
  id : Nat
  reason : String
deriving DecidableEq, Repr

/-- restaurant_reviews table (models.py RestaurantReview).  Note that the
model has NO booking_reference, customer_name or would_recommend column. -/
structure RestaurantReview where
  id : Nat
  restaurant_id : Nat
  user_id : Nat
  booking_id : Option Nat
  rating : Int
  title : Option String
  review_text : Option String
  food_rating : Option Int
  service_rating : Option Int
  ambiance_rating : Option Int
  value_rating : Option Int
deriving DecidableEq, Repr

/-- The database: one list per table, plus primary-key counters. -/
structure DB where
  users : List User
  restaurants : List Restaurant
  customers : List Customer
  bookings : List Booking
  slots : List AvailabilitySlot
  cancellationReasons : List CancellationReason
  reviews : List RestaurantReview
  nextCustomerId : Nat
  nextBookingId : Nat
deriving DecidableEq, Repr

/-- Python `a or b` on two Optional[str] values: the left operand wins
unless it is None or the empty string (both falsy in Python). -/
def pyOr (a b : Option String) : Option String :=
  match a with
  | some s => if s == "" then b else some s
  | none => b

/-- Replace the first element satisfying `p` by its image under `f`:
this is the mutation of the single row object returned by `.first()`. -/
def replaceFirst {α : Type} (p : α → Bool) (f : α → α) : List α → List α
  | [] => []
  | x :: xs => if p x then f x :: xs else x :: replaceFirst p f xs

/-! ## routers/booking.py -/

/-- The alphabet `string.ascii_uppercase + string.digits` used by
generate_booking_reference. -/
def referenceAlphabet : List Char :=
  "ABCDEFGHIJKLMNOPQRSTUVWXYZ0123456789".toList

/-- booking.py generate_booking_reference: seven draws from the 36-element
alphabet via `random.choices(..., k=7)`.  The random source is modelled as
a function `g` giving the index drawn at each of the seven positions
(reduced mod 36, the population size). -/
def generate_booking_reference (g : Nat → Nat) : String :=
  String.mk ((List.range 7).map (fun i => referenceAlphabet.getD (g i % 36) 'A'))

/-- The retry loop of create_booking_with_stripe (booking.py lines 71-73):
keep drawing a fresh candidate while the uniqueness query
`db.query(Booking).filter(Booking.booking_reference == candidate).first()`
matches.  `gs` is the (finite prefix of the) stream of random draws;
`none` models the loop not terminating within the supplied draws -- the
source has no retry cap. -/
def allocate_reference : List (Nat → Nat) → List Booking → Option String
  | [], _ => none
  | g :: gs, bookings =>
    let candidate := generate_booking_reference g
    if bookings.any (fun b => b.booking_reference == candidate) then
      allocate_reference gs bookings
    else
      some candidate

/-- Response body of create_booking_with_stripe. -/
structure CreateResp where
  booking_reference : String
  booking_id : Nat
  restaurant : String
  status : String
deriving DecidableEq, Repr

/-- booking.py create_booking_with_stripe (lines 32-96): look up the
restaurant by name (404 if absent); find the Customer row of the
authenticated user, creating one from the form fields / user profile if
none exists; allocate a fresh booking reference; insert a booking with
status `confirmed` linked to the user.  `now` models datetime.utcnow for
the created_at/updated_at column defaults; `gs` feeds the reference
allocator, and the outer `none` is the un-capped retry loop failing to
terminate within the supplied draws. -/
def create_booking_with_stripe (db : DB) (now : Nat) (gs : List (Nat → Nat))
    (current_user : User) (restaurant_name : String)
    (VisitDate VisitTime : Nat) (PartySize : Int) (ChannelCode : String)
    (SpecialRequests Title FirstName Surname Mobile Email : Option String) :
    Option (Except PyExc CreateResp × DB) :=
  match db.restaurants.find? (fun r => r.name == restaurant_name) with
  | none => some (.error (.http 404 "Restaurant not found"), db)
  | some restaurant =>
    let found := db.customers.find? (fun c => decide (c.user_id = some current_user.id))
    let customer : Customer :=
      match found with
      | some c => c
      | none =>
        { id := db.nextCustomerId
          user_id := some current_user.id
          title := pyOr Title current_user.first_name
          first_name := pyOr FirstName current_user.first_name
          surname := pyOr Surname current_user.last_name
          email := pyOr Email (some current_user.email)
          mobile := pyOr Mobile current_user.phone }
    let db1 : DB :=
      match found with
      | some _ => db
      | none => { db with customers := db.customers ++ [customer],
                          nextCustomerId := db.nextCustomerId + 1 }
    match allocate_reference gs db1.bookings with
    | none => none
    | some booking_reference =>
      let booking : Booking :=
        { id := db1.nextBookingId
          booking_reference := booking_reference
          restaurant_id := restaurant.id
          customer_id := customer.id
          user_id := some current_user.id
          visit_date := VisitDate
          visit_time := VisitTime
          party_size := PartySize
          channel_code := ChannelCode
          special_requests := SpecialRequests
          is_leave_time_confirmed := false
          room_number := none
          status := "confirmed"
          cancellation_reason_id := none
          created_at := now
          updated_at := now }
      let db2 : DB := { db1 with bookings := db1.bookings ++ [booking],
                                 nextBookingId := db1.nextBookingId + 1 }
      some (.ok { booking_reference := booking_reference
                  booking_id := booking.id
                  restaurant := restaurant.name
                  status := "confirmed" }, db2)

/-- The row predicate of the ownership-checked queries in booking.py
(get/update/cancel): join Bookings with Restaurant on restaurant_id,
filter on the restaurant name of the path, the booking reference of the
path, and `Booking.user_id == current_user.id`. -/
def bookingOwnedBy (db : DB) (current_user : User) (restaurant_name booking_reference : String)
    (b : Booking) : Bool :=
  db.restaurants.any (fun r => r.id == b.restaurant_id && r.name == restaurant_name) &&
  b.booking_reference == booking_reference &&
  decide (b.user_id = some current_user.id)

/-- The `.first()` of the ownership-checked query. -/
def findOwnedBooking (db : DB) (current_user : User)
    (restaurant_name booking_reference : String) : Option Booking :=
  db.bookings.find? (bookingOwnedBy db current_user restaurant_name booking_reference)

/-- booking.py get_booking (lines 99-121): the ownership-filtered lookup;
404 when no row matches, otherwise the whole booking row is returned. -/
def get_booking (db : DB) (current_user : User)
    (restaurant_name booking_reference : String) : Except PyExc Booking :=
  match findOwnedBooking db current_user restaurant_name booking_reference with
  | none => .error (.http 404 "Booking not found or access denied")
  | some booking => .ok booking

/-- The setattr block of update_booking (booking.py lines 153-169): each
of the four patchable columns is overwritten only when the corresponding
form value is not None, and updated_at is touched only when at least one
field was supplied (otherwise the handler returns without committing, so
the row is unchanged). -/
def updatePatch (now : Nat) (VisitDate VisitTime : Option Nat) (PartySize : Option Int)
    (SpecialRequests : Option String) (b : Booking) : Booking :=
  { b with
    visit_date := VisitDate.getD b.visit_date
    visit_time := VisitTime.getD b.visit_time
    party_size := PartySize.getD b.party_size
    special_requests :=
      match SpecialRequests with
      | some s => some s
      | none => b.special_requests
    updated_at :=
      if VisitDate.isSome || VisitTime.isSome || PartySize.isSome || SpecialRequests.isSome
      then now else b.updated_at }

/-- booking.py update_booking (lines 124-171): ownership-filtered lookup
(404), reject cancelled bookings (400), then apply `updatePatch` to the
found row. -/
def update_booking (db : DB) (now : Nat) (current_user : User)
    (restaurant_name booking_reference : String)
    (VisitDate VisitTime : Option Nat) (PartySize : Option Int)
    (SpecialRequests : Option String) :
    Except PyExc (String × Booking) × DB :=
  match findOwnedBooking db current_user restaurant_name booking_reference with
  | none => (.error (.http 404 "Booking not found or access denied"), db)
  | some booking =>
    if booking.status == "cancelled" then
      (.error (.http 400 "Cannot update a cancelled booking"), db)
    else
      let newBookings :=
        replaceFirst (bookingOwnedBy db current_user restaurant_name booking_reference)
          (updatePatch now VisitDate VisitTime PartySize SpecialRequests) db.bookings
      ( .ok ("Booking updated successfully",
             updatePatch now VisitDate VisitTime PartySize SpecialRequests booking),
        { db with bookings := newBookings } )

/-- The mutation of cancel_booking (booking.py lines 204-206): set status
to cancelled, record the reason id, touch updated_at. -/
def cancelPatch (now : Nat) (cancellationReasonId : Nat) (b : Booking) : Booking :=
  { b with status := "cancelled"
           cancellation_reason_id := some cancellationReasonId
           updated_at := now }

/-- booking.py cancel_booking (lines 174-209): ownership-filtered lookup
(404), reject an already-cancelled booking (400), reject an unknown
cancellation reason id (400, `query.get` primary-key lookup), otherwise
set status to cancelled and record the reason id. -/
def cancel_booking (db : DB) (now : Nat) (current_user : User)
    (restaurant_name booking_reference : String) (cancellationReasonId : Nat) :
    Except PyExc String × DB :=
  match findOwnedBooking db current_user restaurant_name booking_reference with
  | none => (.error (.http 404 "Booking not found or access denied"), db)
  | some booking =>
    if booking.status == "cancelled" then
      (.error (.http 400 "Booking is already cancelled"), db)
    else
      match db.cancellationReasons.find? (fun cr => cr.id == cancellationReasonId) with
      | none => (.error (.http 400 "Invalid cancellation reason ID"), db)
      | some _ =>
        let newBookings :=
          replaceFirst (bookingOwnedBy db current_user restaurant_name booking_reference)
            (cancelPatch now cancellationReasonId) db.bookings
        ( .ok ("Booking " ++ booking_reference ++ " has been successfully cancelled"),
          { db with bookings := newBookings } )

/-! ## routers/availability.py -/

/-- The fixed per-slot ceiling `max_bookings_per_slot = 3` of
availability_search. -/
def max_bookings_per_slot : Nat := 3

/-- The count query of availability_search (lines 73-78): confirmed
bookings at exactly this restaurant, visit date and time. -/
def confirmedCount (db : DB) (restaurant_id : Nat) (visitDate slotTime : Nat) : Nat :=
  (db.bookings.filter (fun b =>
    b.restaurant_id == restaurant_id && b.visit_date == visitDate &&
    b.visit_time == slotTime && b.status == "confirmed")).length

/-- One entry of the available_slots list in the response (the
strftime presentation of the time is kept as the ordinal itself). -/
structure SlotOut where
  time : Nat
  available : Bool
  max_party_size : Int
  current_bookings : Nat
deriving DecidableEq, Repr

/-- The per-slot record built in the loop body of availability_search
(lines 71-89). -/
def annotateSlot (db : DB) (restaurant_id : Nat) (visitDate : Nat)
    (slot : AvailabilitySlot) : SlotOut :=
  let existing_bookings := confirmedCount db restaurant_id visitDate slot.time
  { time := slot.time
    available := slot.available && decide (existing_bookings < max_bookings_per_slot)
    max_party_size := slot.max_party_size
    current_bookings := existing_bookings }

/-- Response body of availability_search. -/
structure AvailResp where
  restaurant : String
  restaurant_id : Nat
  visit_date : Nat
  party_size : Int
  channel_code : String
  available_slots : List SlotOut
  total_slots : Nat
deriving DecidableEq, Repr

/-- availability.py availability_search (lines 28-99): find the restaurant
by name (404), select the slots of that restaurant and date whose
max_party_size accommodates the party, and decorate each with the confirmed
booking count and `available = slot.available and count < 3`.  The
endpoint is read-only; the authenticated user is required by the
dependency but unused in the body. -/
def availability_search (db : DB) (_current_user : User) (restaurant_name : String)
    (VisitDate : Nat) (PartySize : Int) (ChannelCode : String) :
    Except PyExc AvailResp :=
  match db.restaurants.find? (fun r => r.name == restaurant_name) with
  | none => .error (.http 404 "Restaurant not found")
  | some restaurant =>
    let slots := db.slots.filter (fun s =>
      s.restaurant_id == restaurant.id && s.date == VisitDate &&
      decide (PartySize ≤ s.max_party_size))
    let available_slots := slots.map (annotateSlot db restaurant.id VisitDate)
    .ok { restaurant := restaurant_name
          restaurant_id := restaurant.id
          visit_date := VisitDate
          party_size := PartySize
          channel_code := ChannelCode
          available_slots := available_slots
          total_slots := available_slots.length }

/-! ## routers/advanced_booking.py -/

/-- The `valid_statuses` list of update_booking_status (line 190). -/
def valid_statuses : List String :=
  ["confirmed", "pending", "cancelled", "completed", "no_show"]

/-- Response body of update_booking_status. -/
structure StatusResp where
  booking_reference : String
  old_status : String
  new_status : String
  updated_at : Nat
  notes : Option String
deriving DecidableEq, Repr

/-- The mutation of update_booking_status (advanced_booking.py lines
207-208): write the new status and touch updated_at. -/
def statusPatch (now : Nat) (new_status : String) (b : Booking) : Booking :=
  { b with status := new_status, updated_at := now }

/-- The try-block of advanced_booking.py update_booking_status (lines
188-219): reject a status outside valid_statuses (400), look up the
booking by reference and `user_id == current_user.id` (404), then write
the new status recording the old one.  This endpoint path has no
restaurant segment, so no restaurant join. -/
def update_booking_status_try (db : DB) (now : Nat) (current_user : User)
    (booking_reference new_status : String) (notes : Option String) :
    Except PyExc StatusResp × DB :=
  if valid_statuses.contains new_status then
    match db.bookings.find? (fun b =>
        b.booking_reference == booking_reference &&
        decide (b.user_id = some current_user.id)) with
    | none => (.error (.http 404 "Booking not found"), db)
    | some booking =>
      let newBookings :=
        replaceFirst (fun b =>
          b.booking_reference == booking_reference &&
          decide (b.user_id = some current_user.id))
          (statusPatch now new_status) db.bookings
      ( .ok { booking_reference := booking_reference
              old_status := booking.status
              new_status := new_status
              updated_at := now
              notes := notes },
        { db with bookings := newBookings } )
  else
    (.error (.http 400
      "Invalid status. Must be one of: confirmed, pending, cancelled, completed, no_show"), db)

/-- advanced_booking.py update_booking_status (lines 177-224).  The whole
try-block sits under `except Exception as e: db.rollback(); raise
HTTPException(500, ...)` with NO preceding `except HTTPException: raise`
clause; fastapi.HTTPException subclasses Exception, so the 400 and 404
raised inside the try-block are caught here too and the caller receives a
500 response, with the session rolled back (state unchanged). -/
def update_booking_status (db : DB) (now : Nat) (current_user : User)
    (booking_reference new_status : String) (notes : Option String) :
    Except PyExc StatusResp × DB :=
  match update_booking_status_try db now current_user booking_reference new_status notes with
  | (.ok v, db2) => (.ok v, db2)
  | (.error _, _) => (.error (.http 500 "Failed to update booking status"), db)

/-! ## routers/user.py -/

/-- A decoded JWT payload.  `decode_token` (auth.py) returns the claim
dictionary on success; the `sub` claim may in principle be absent from a
decoded dictionary, in which case `payload["sub"]` raises KeyError. -/
structure Payload where
  sub : Option String
deriving DecidableEq, Repr

/-- user.py get_current_user (lines 19-46): the bearer dependency used by
every authenticated endpoint.  The cryptographic JWT decode of
auth.decode_token (auth.py lines 80-86, returning None on any JWTError)
is abstracted by its result `payload`.  A None payload, an email matching
no user, or a deactivated user each yield 401; the user is returned only
when all checks pass. -/
def get_current_user (db : DB) (payload : Option Payload) : Except PyExc User :=
  match payload with
  | none => .error (.http 401 "Invalid token")
  | some p =>
    match p.sub with
    | none => .error (.keyError "sub")
    | some sub =>
      match db.users.find? (fun u => u.email == sub) with
      | none => .error (.http 401 "User not found")
      | some user =>
        if user.is_active then .ok user
        else .error (.http 401 "Account has been deactivated")

/-! ## routers/reviews.py -/

/-- Request body of create_review (ReviewCreate). -/
structure ReviewCreate where
  booking_reference : String
  rating : Int
  title : String
  review_text : String
  food_rating : Option Int
  service_rating : Option Int
  ambiance_rating : Option Int
  value_rating : Option Int
  would_recommend : Bool
deriving DecidableEq, Repr

/-- The try-block of reviews.py create_review (lines 68-149): the booking
is looked up by reference (404 when absent); the very next statement,
`if booking.customer_name != current_user.full_name:` (line 80), reads
attribute `customer_name`, which the Booking model (models.py lines
149-176) does not define, so it raises AttributeError unconditionally
(`current_user.full_name` does not exist on the User model either, and
the later query filter `RestaurantReview.booking_reference` names another
non-existent column).  Every statement after line 80 -- the past-date
check, the duplicate-review check, the rating range check and the insert
-- is therefore unreachable for an existing booking. -/
def create_review_try (db : DB) (_current_user : User) (review_data : ReviewCreate) :
    Except PyExc Nat × DB :=
  match db.bookings.find? (fun b => b.booking_reference == review_data.booking_reference) with
  | none => (.error (.http 404 "Booking not found"), db)
  | some _ => (.error (.attrError "Booking.customer_name"), db)

/-- reviews.py create_review (lines 62-159): the try-block under
`except HTTPException: raise` followed by `except Exception:
db.rollback(); raise HTTPException(500, "Failed to create review")`:
HTTP errors pass through, any other exception becomes a 500 with the
session rolled back. -/
def create_review (db : DB) (current_user : User) (review_data : ReviewCreate) :
    Except PyExc Nat × DB :=
  match create_review_try db current_user review_data with
  | (.ok v, db2) => (.ok v, db2)
  | (.error (.http c d), db2) => (.error (.http c d), db2)
  | (.error _, _) => (.error (.http 500 "Failed to create review"), db)

/-! ## Concrete database states used by counterexamples and witnesses -/

/-- A user who owns the sample booking. -/
def user1 : User :=
  { id := 1, username := "alice", email := "alice@example.com",
    first_name := some "Alice", last_name := some "Smith",
    phone := some "0111", is_active := true }

/-- A second, unrelated user. -/
def user2 : User :=
  { id := 2, username := "bob", email := "bob@example.com",
    first_name := some "Bob", last_name := some "Jones",
    phone := some "0222", is_active := true }

/-- The sample restaurant. -/
def rest1 : Restaurant := { id := 1, name := "Bistro" }

/-- The Customer row of user1. -/
def cust1 : Customer :=
  { id := 1, user_id := some 1, title := some "Ms",
    first_name := some "Alice", surname := some "Smith",
    email := some "alice@example.com", mobile := some "0111" }

/-- A confirmed booking of user1 at rest1 (visit date/time are ordinals). -/
def bk1 : Booking :=
  { id := 1, booking_reference := "REF1234", restaurant_id := 1, customer_id := 1,
    user_id := some 1, visit_date := 100, visit_time := 18, party_size := 2,
    channel_code := "ONLINE", special_requests := none,
    is_leave_time_confirmed := false, room_number := none,
    status := "confirmed", cancellation_reason_id := none,
    created_at := 0, updated_at := 0 }

/-- A seeded cancellation reason. -/
def reason1 : CancellationReason := { id := 1, reason := "Customer Request" }

/-- The base sample state: two users, one restaurant, one confirmed
booking owned by user1. -/
def db0 : DB :=
  { users := [user1, user2], restaurants := [rest1], customers := [cust1],
    bookings := [bk1], slots := [], cancellationReasons := [reason1],
    reviews := [], nextCustomerId := 2, nextBookingId := 2 }

/-- db0 with the booking status replaced, for exercising transitions. -/
def dbWithStatus (s : String) : DB :=
  { db0 with bookings := [{ bk1 with status := s }] }

/-- Three confirmed bookings of user1 at rest1, all at date 100 time 18. -/
def threeBookings : List Booking :=
  [ bk1,
    { bk1 with id := 2, booking_reference := "REF2222", customer_id := 1 },
    { bk1 with id := 3, booking_reference := "REF3333", customer_id := 1 } ]

/-- Two slots at rest1 on date 100 (times 18 and 19) and one on another
date; the time-18 slot accepts parties up to 6, the time-19 slot only up
to 2.  The time-18 slot on date 100 already has three confirmed
bookings. -/
def dbAvail : DB :=
  { db0 with
    bookings := threeBookings,
    nextBookingId := 4,
    slots :=
      [ { id := 1, restaurant_id := 1, date := 100, time := 18,
          max_party_size := 6, available := true },
        { id := 2, restaurant_id := 1, date := 100, time := 19,
          max_party_size := 2, available := true },
        { id := 3, restaurant_id := 1, date := 200, time := 18,
          max_party_size := 6, available := true } ] }

/-- A closed slot at the date and time of the three confirmed bookings;
used to show booking creation ignores the slot table. -/
def closedSlot : AvailabilitySlot :=
  { id := 9, restaurant_id := 1, date := 100, time := 18,
    max_party_size := 6, available := false }

/-- A review request naming the sample booking, with an in-range rating. -/
def rc1 : ReviewCreate :=
  { booking_reference := "REF1234", rating := 4, title := "Great",
    review_text := "Lovely evening", food_rating := none, service_rating := none,
    ambiance_rating := none, value_rating := none, would_recommend := true }

/-- The result of availability_search on dbAvail for party size 4:
only the time-18 slot accepts the party, and its three confirmed bookings
push it to available = false. -/
def availResEx : AvailResp :=
  { restaurant := "Bistro", restaurant_id := 1, visit_date := 100, party_size := 4,
    channel_code := "ONLINE",
    available_slots :=
      [{ time := 18, available := false, max_party_size := 6, current_bookings := 3 }],
    total_slots := 1 }

/-- The response of a successful booking creation on db0 with the
constant-zero random stream (reference AAAAAAA, booking id 2). -/
def createRespEx : CreateResp :=
  { booking_reference := "AAAAAAA", booking_id := 2,
    restaurant := "Bistro", status := "confirmed" }

/-- The booking inserted by that creation when user1 (who already has
Customer row 1) books. -/
def newBkEx : Booking :=
  { id := 2, booking_reference := "AAAAAAA", restaurant_id := 1, customer_id := 1,
    user_id := some 1, visit_date := 100, visit_time := 18, party_size := 2,
    channel_code := "ONLINE", special_requests := none,
    is_leave_time_confirmed := false, room_number := none,
    status := "confirmed", cancellation_reason_id := none,
    created_at := 0, updated_at := 0 }

/-- db0 after user1 books (customer reused, booking appended). -/
def dbAfterCreate : DB :=
  { db0 with bookings := [bk1, newBkEx], nextBookingId := 3 }

/-- The Customer row lazily created when user2 (who has none) books. -/
def cust2Ex : Customer :=
  { id := 2, user_id := some 2, title := some "Bob",
    first_name := some "Bob", surname := some "Jones",
    email := some "bob@example.com", mobile := some "0222" }

/-- The booking inserted when user2 books on db0. -/
def newBkEx2 : Booking :=
  { newBkEx with customer_id := 2, user_id := some 2 }

/-- db0 after user2 books (customer created, booking appended). -/
def dbAfterCreate2 : DB :=
  { db0 with customers := [cust1, cust2Ex], bookings := [bk1, newBkEx2],
             nextCustomerId := 3, nextBookingId := 3 }

/-! ## Spec-side predicates (stated from the claims, used only in theorem
statements) -/

/-- The uniqueness invariant of claim C4: booking reference values are
pairwise distinct across all bookings. -/
def RefsUnique (db : DB) : Prop :=
  (db.bookings.map (fun b => b.booking_reference)).Nodup

/-- The invariant of claim C8: every user has at most one Customer row. -/
def AtMostOneCustomerPerUser (db : DB) : Prop :=
  ∀ uid : Nat,
    (db.customers.filter (fun c => decide (c.user_id = some uid))).length ≤ 1

/-- The preconditions claim C6 states for review creation: the referenced
booking exists, belongs to the requesting user, its visit date-time lies
in the past (nowDate/nowTime is the current instant), the user has not
already reviewed that booking, and the overall rating is between 1 and
5. -/
def reviewPreconditions (db : DB) (u : User) (rd : ReviewCreate)
    (nowDate nowTime : Nat) : Prop :=
  ∃ b ∈ db.bookings,
    b.booking_reference = rd.booking_reference ∧
    b.user_id = some u.id ∧
    (b.visit_date < nowDate ∨ (b.visit_date = nowDate ∧ b.visit_time ≤ nowTime)) ∧
    (∀ rv ∈ db.reviews, ¬(rv.user_id = u.id ∧ rv.booking_id = some b.id)) ∧
    1 ≤ rd.rating ∧ rd.rating ≤ 5

end RB


namespace RB

/-! ## Helper lemmas -/

/-- getD at an index below the length yields a member of the list. -/
theorem getD_mem {α : Type} :
    ∀ (l : List α) (n : Nat) (d : α), n < l.length → l.getD n d ∈ l := by
  intro l
  induction l with
  | nil => intro n d h; simp at h
  | cons x xs ih =>
    intro n d h
    cases n with
    | zero => simp
    | succ m =>
      simp only [List.getD_cons_succ]
      exact List.mem_cons_of_mem _ (ih m d (by simpa using h))

/-- Every generated booking reference has length 7. -/
theorem generate_booking_reference_length (g : Nat → Nat) :
    (generate_booking_reference g).length = 7 := by
  simp [generate_booking_reference, String.length]

/-- Every character of a generated booking reference is drawn from the
uppercase-plus-digits alphabet. -/
theorem generate_booking_reference_chars (g : Nat → Nat) :
    ∀ c ∈ (generate_booking_reference g).data, c ∈ referenceAlphabet := by
  intro c hc
  simp only [generate_booking_reference, String.data, List.mem_map, List.mem_range] at hc
  obtain ⟨i, _, rfl⟩ := hc
  refine getD_mem _ _ _ ?_
  have h36 : referenceAlphabet.length = 36 := by decide
  rw [h36]
  exact Nat.mod_lt _ (by decide)

/-- The allocator returns a generated candidate that collides with no
existing booking reference. -/
theorem allocate_reference_spec :
    ∀ (gs : List (Nat → Nat)) (bookings : List Booking) (r : String),
      allocate_reference gs bookings = some r →
      (∃ g ∈ gs, r = generate_booking_reference g) ∧
      ∀ b ∈ bookings, b.booking_reference ≠ r := by
  intro gs
  induction gs with
  | nil => intro bs r h; simp [allocate_reference] at h
  | cons g gs ih =>
    intro bs r h
    simp only [allocate_reference] at h
    by_cases hc : bs.any (fun b => b.booking_reference == generate_booking_reference g)
    · rw [if_pos hc] at h
      obtain ⟨⟨g2, hg2, hr⟩, hfresh⟩ := ih bs r h
      exact ⟨⟨g2, List.mem_cons_of_mem _ hg2, hr⟩, hfresh⟩
    · rw [if_neg hc] at h
      cases h
      refine ⟨⟨g, List.mem_cons_self _ _, rfl⟩, ?_⟩
      intro b hb
      simp only [List.any_eq_true, not_exists, not_and, Bool.not_eq_true] at hc
      intro heq
      have := hc b hb
      rw [heq] at this
      simp at this

/-- If find? locates b, the list splits as l1 ++ b :: l2 with no match in
l1, and replaceFirst rewrites exactly that occurrence. -/
theorem replaceFirst_decomp {α : Type} (p : α → Bool) (f : α → α) :
    ∀ (l : List α) (b : α), l.find? p = some b →
      ∃ l1 l2, l = l1 ++ b :: l2 ∧ (∀ y ∈ l1, p y = false) ∧
        replaceFirst p f l = l1 ++ f b :: l2 := by
  intro l
  induction l with
  | nil => intro b h; simp at h
  | cons x xs ih =>
    intro b h
    cases hp : p x with
    | true =>
      rw [List.find?_cons_of_pos _ hp] at h
      cases h
      exact ⟨[], xs, rfl, by simp, by simp [replaceFirst, hp]⟩
    | false =>
      rw [List.find?_cons_of_neg _ (by simp [hp])] at h
      obtain ⟨l1, l2, hl, hl1, hr⟩ := ih b h
      refine ⟨x :: l1, l2, by simp [hl], ?_, ?_⟩
      · intro y hy
        rcases List.mem_cons.mp hy with rfl | hy2
        · exact hp
        · exact hl1 y hy2
      · simp [replaceFirst, hp, hr]

/-- Appending a fresh element preserves Nodup. -/
theorem nodup_append_singleton {α : Type} (l : List α) (a : α)
    (h : l.Nodup) (ha : a ∉ l) : (l ++ [a]).Nodup := by
  simp [List.nodup_append, h, ha]

/-! ## Claim theorems -/

/-- Claim C1 (code_bug evidence): with booking REF1234 owned by user1,
requests by user2 to the fetch, update and cancel endpoints respond 404
and leave the state unchanged, and no booking data is returned; but the
status-update endpoint of advanced_booking.py responds 500 rather than
the claimed 404 (its catch-all `except Exception` swallows the
HTTPException(404) raised inside the try-block), still disclosing and
changing nothing. -/
theorem claim1_cross_user_access_isolated_but_status_endpoint_responds_500 :
    bk1.user_id = some user1.id ∧ user2.id ≠ user1.id ∧
    get_booking db0 user2 "Bistro" "REF1234" =
      .error (.http 404 "Booking not found or access denied") ∧
    update_booking db0 5 user2 "Bistro" "REF1234" (some 101) none none none =
      (.error (.http 404 "Booking not found or access denied"), db0) ∧
    cancel_booking db0 5 user2 "Bistro" "REF1234" 1 =
      (.error (.http 404 "Booking not found or access denied"), db0) ∧
    update_booking_status db0 5 user2 "REF1234" "confirmed" none =
      (.error (.http 500 "Failed to update booking status"), db0) ∧
    (update_booking_status_try db0 5 user2 "REF1234" "confirmed" none).1 =
      .error (.http 404 "Booking not found") :=
  ⟨rfl, by decide, rfl, rfl, rfl, rfl, rfl⟩

/-- Claim C6 (code_bug evidence): on db0 every precondition the claim
lists for review creation holds at instant (200, 0) -- the booking
exists, belongs to user1, its visit (100, 18) is past, user1 has no
review yet, and the rating 4 is in range -- yet create_review responds
500 and adds no review: reviews.py line 80 reads the non-existent
attribute `booking.customer_name` (AttributeError, turned into a 500 by
the generic handler), so no review can ever be created. -/
theorem claim6_create_review_500_despite_preconditions :
    reviewPreconditions db0 user1 rc1 200 0 ∧
    create_review db0 user1 rc1 = (.error (.http 500 "Failed to create review"), db0) ∧
    (create_review db0 user1 rc1).2.reviews = db0.reviews ∧
    (create_review_try db0 user1 rc1).1 = .error (.attrError "Booking.customer_name") := by
  refine ⟨?_, rfl, rfl, rfl⟩
  exact ⟨bk1, by simp [db0], rfl, rfl, Or.inl (by decide), by simp [db0], by decide, by decide⟩

/-- Claim C7 (code_bug evidence): the status-update endpoint accepts
every status of the fixed set from every prior status of an owned
booking, recording old and new status in its response; but a status
outside the set is answered with 500, not the claimed 400 (the
HTTPException(400) raised in the try-block of advanced_booking.py is
swallowed by its catch-all `except Exception`), the booking being
unchanged either way. -/
theorem claim7_any_transition_allowed_but_invalid_status_responds_500 :
    (∀ s1 ∈ valid_statuses, ∀ s2 ∈ valid_statuses,
      update_booking_status (dbWithStatus s1) 5 user1 "REF1234" s2 none =
        (.ok { booking_reference := "REF1234", old_status := s1, new_status := s2,
               updated_at := 5, notes := none },
         { dbWithStatus s1 with bookings := [{ bk1 with status := s2, updated_at := 5 }] })) ∧
    "archived" ∉ valid_statuses ∧
    update_booking_status db0 5 user1 "REF1234" "archived" none =
      (.error (.http 500 "Failed to update booking status"), db0) ∧
    (update_booking_status_try db0 5 user1 "REF1234" "archived" none).1 =
      .error (.http 400
        "Invalid status. Must be one of: confirmed, pending, cancelled, completed, no_show") := by
  refine ⟨?_, by decide, rfl, rfl⟩
  intro s1 h1 s2 h2
  fin_cases h1 <;> fin_cases h2 <;> rfl

/-- Claim C9: the bearer dependency get_current_user rejects with 401
whenever the token decode failed, or the decoded sub email matches no
user, or the matched user is deactivated; and a user is handed to the
endpoint body only when the decode succeeded, the sub email matched a
user and that user is active. -/
theorem claim9_bearer_auth_checks (db : DB) (payload : Option Payload) :
    (payload = none → get_current_user db payload = .error (.http 401 "Invalid token")) ∧
    (∀ p s, payload = some p → p.sub = some s →
      (db.users.find? (fun u => u.email == s) = none →
        get_current_user db payload = .error (.http 401 "User not found")) ∧
      (∀ u, db.users.find? (fun u2 => u2.email == s) = some u → u.is_active = false →
        get_current_user db payload = .error (.http 401 "Account has been deactivated"))) ∧
    (∀ u, get_current_user db payload = .ok u →
      ∃ p s, payload = some p ∧ p.sub = some s ∧
        db.users.find? (fun u2 => u2.email == s) = some u ∧ u.is_active = true) := by
  refine ⟨?_, ?_, ?_⟩
  · rintro rfl; rfl
  · rintro p s rfl hsub
    constructor
    · intro hf; simp [get_current_user, hsub, hf]
    · intro u hf hact; simp [get_current_user, hsub, hf, hact]
  · intro u h
    cases hp : payload with
    | none => rw [hp] at h; simp [get_current_user] at h
    | some p =>
      rw [hp] at h
      cases hs : p.sub with
      | none => simp [get_current_user, hs] at h
      | some s =>
        cases hf : db.users.find? (fun u2 => u2.email == s) with
        | none => simp [get_current_user, hs, hf] at h
        | some u2 =>
          by_cases hact : u2.is_active
          · have hu : u2 = u := by
              simpa [get_current_user, hs, hf, hact] using h
            exact ⟨p, s, rfl, hs, by rw [hf, hu], by rw [← hu]; exact hact⟩
          · simp [get_current_user, hs, hf, hact] at h

/-- Witness for claim C9: a concrete token whose sub matches the active
user alice is accepted, with the checks of the theorem instantiated. -/
theorem claim9_bearer_auth_checks_witness :
    ∃ p s, (some { sub := some "alice@example.com" } : Option Payload) = some p ∧
      p.sub = some s ∧
      db0.users.find? (fun u2 => u2.email == s) = some user1 ∧
      user1.is_active = true :=
  (claim9_bearer_auth_checks db0 (some { sub := some "alice@example.com" })).2.2 user1 rfl

/-- Claim C2: on an existing restaurant, the availability search returns
exactly the stored slots of that restaurant and date whose
max_party_size accepts the party, and every returned slot carries
current_bookings equal to the count of confirmed bookings at that exact
restaurant, date and time, with available = (stored open flag AND
current_bookings < 3); in particular available is false whenever
current_bookings reaches the ceiling, regardless of the open flag. -/
theorem claim2_availability_search_contract (db : DB) (u : User) (rname : String)
    (VisitDate : Nat) (PartySize : Int) (ChannelCode : String) (res : AvailResp)
    (h : availability_search db u rname VisitDate PartySize ChannelCode = .ok res) :
    ∃ restaurant, db.restaurants.find? (fun r => r.name == rname) = some restaurant ∧
      res.available_slots =
        (db.slots.filter (fun s =>
          s.restaurant_id == restaurant.id && s.date == VisitDate &&
          decide (PartySize ≤ s.max_party_size))).map
          (annotateSlot db restaurant.id VisitDate) ∧
      (∀ out ∈ res.available_slots,
        PartySize ≤ out.max_party_size ∧
        out.current_bookings = confirmedCount db restaurant.id VisitDate out.time ∧
        (∃ slot ∈ db.slots, slot.restaurant_id = restaurant.id ∧ slot.date = VisitDate ∧
          slot.time = out.time ∧ slot.max_party_size = out.max_party_size ∧
          out.available = (slot.available &&
            decide (confirmedCount db restaurant.id VisitDate slot.time <
              max_bookings_per_slot))) ∧
        (max_bookings_per_slot ≤ out.current_bookings → out.available = false)) := by
  unfold availability_search at h
  cases hr : db.restaurants.find? (fun r => r.name == rname) with
  | none => rw [hr] at h; cases h
  | some restaurant =>
    rw [hr] at h
    simp only [Except.ok.injEq] at h
    subst h
    refine ⟨restaurant, rfl, rfl, ?_⟩
    intro out hout
    simp only [List.mem_map] at hout
    obtain ⟨slot, hslot, rfl⟩ := hout
    rw [List.mem_filter] at hslot
    obtain ⟨hmem, hpred⟩ := hslot
    simp only [Bool.and_eq_true, beq_iff_eq, decide_eq_true_eq] at hpred
    obtain ⟨⟨hrid, hdate⟩, hps⟩ := hpred
    refine ⟨hps, rfl, ⟨slot, hmem, hrid, hdate, rfl, rfl, rfl⟩, ?_⟩
    intro hge
    have hcnt : decide (confirmedCount db restaurant.id VisitDate slot.time <
        max_bookings_per_slot) = false := by
      simp only [decide_eq_false_iff_not, Nat.not_lt]
      simpa [annotateSlot] using hge
    simp [annotateSlot, hcnt]

/-- Witness for claim C2: on dbAvail (three confirmed bookings at time
18, only the time-18 slot accepting a party of 4) the search succeeds;
the returned slot satisfies the filter and the ceiling invariants, and
reports available = false despite its stored open flag being true. -/
theorem claim2_availability_search_contract_witness :
    ∃ res, availability_search dbAvail user1 "Bistro" 100 4 "ONLINE" = .ok res ∧
      res.available_slots =
        [{ time := 18, available := false, max_party_size := 6, current_bookings := 3 }] ∧
      ∃ restaurant, dbAvail.restaurants.find? (fun r => r.name == "Bistro") = some restaurant ∧
        ∀ out ∈ res.available_slots,
          (4 : Int) ≤ out.max_party_size ∧
          (max_bookings_per_slot ≤ out.current_bookings → out.available = false) := by
  refine ⟨availResEx, rfl, rfl, ?_⟩
  obtain ⟨restaurant, hfind, _, hpt⟩ :=
    claim2_availability_search_contract dbAvail user1 "Bistro" 100 4 "ONLINE" availResEx rfl
  exact ⟨restaurant, hfind, fun out hout => ⟨(hpt out hout).1, (hpt out hout).2.2.2⟩⟩

/-- Claim C3: on a booking owned by the requester, cancellation fails
with 400 and the whole state is unchanged when the booking is already
cancelled or the supplied reason id matches no CancellationReason row;
otherwise it succeeds, the booking becomes cancelled with the reason id
recorded, and every other row is untouched. -/
theorem claim3_cancel_booking_contract (db : DB) (now : Nat) (u : User)
    (rname ref : String) (reasonId : Nat) (b : Booking)
    (hb : findOwnedBooking db u rname ref = some b) :
    ((b.status = "cancelled" ∨
        db.cancellationReasons.find? (fun cr => cr.id == reasonId) = none) →
      ∃ d, cancel_booking db now u rname ref reasonId = (.error (.http 400 d), db)) ∧
    (b.status ≠ "cancelled" →
      ∀ cr, db.cancellationReasons.find? (fun cr2 => cr2.id == reasonId) = some cr →
        ∃ l1 l2, db.bookings = l1 ++ b :: l2 ∧
          cancel_booking db now u rname ref reasonId =
            (.ok ("Booking " ++ ref ++ " has been successfully cancelled"),
             { db with bookings := l1 ++ cancelPatch now reasonId b :: l2 }) ∧
          (cancelPatch now reasonId b).status = "cancelled" ∧
          (cancelPatch now reasonId b).cancellation_reason_id = some reasonId ∧
          (cancelPatch now reasonId b).visit_date = b.visit_date ∧
          (cancelPatch now reasonId b).visit_time = b.visit_time ∧
          (cancelPatch now reasonId b).party_size = b.party_size) := by
  constructor
  · intro hdisj
    by_cases hc : b.status = "cancelled"
    · have hct : (b.status == "cancelled") = true := by simp [hc]
      exact ⟨"Booking is already cancelled", by simp [cancel_booking, hb, hct]⟩
    · have hcf : (b.status == "cancelled") = false := by
        cases hsc : (b.status == "cancelled") with
        | false => rfl
        | true => exact absurd (by simpa using hsc) hc
      have hnone : db.cancellationReasons.find? (fun cr => cr.id == reasonId) = none := by
        rcases hdisj with h | h
        · exact absurd h hc
        · exact h
      exact ⟨"Invalid cancellation reason ID", by simp [cancel_booking, hb, hcf, hnone]⟩
  · intro hnc cr hcr
    have hcf : (b.status == "cancelled") = false := by
      cases hsc : (b.status == "cancelled") with
      | false => rfl
      | true => exact absurd (by simpa using hsc) hnc
    obtain ⟨l1, l2, hsplit, _, hrep⟩ :=
      replaceFirst_decomp (bookingOwnedBy db u rname ref) (cancelPatch now reasonId)
        db.bookings b hb
    exact ⟨l1, l2, hsplit, by simp [cancel_booking, hb, hcf, hcr, hrep],
      rfl, rfl, rfl, rfl, rfl⟩

/-- Witness for claim C3: cancelling the confirmed booking REF1234 with
the seeded reason succeeds and rewrites exactly that row. -/
theorem claim3_cancel_booking_contract_witness :
    ∃ l1 l2, db0.bookings = l1 ++ bk1 :: l2 ∧
      cancel_booking db0 7 user1 "Bistro" "REF1234" 1 =
        (.ok ("Booking " ++ "REF1234" ++ " has been successfully cancelled"),
         { db0 with bookings := l1 ++ cancelPatch 7 1 bk1 :: l2 }) ∧
      (cancelPatch 7 1 bk1).status = "cancelled" ∧
      (cancelPatch 7 1 bk1).cancellation_reason_id = some 1 ∧
      (cancelPatch 7 1 bk1).visit_date = bk1.visit_date ∧
      (cancelPatch 7 1 bk1).visit_time = bk1.visit_time ∧
      (cancelPatch 7 1 bk1).party_size = bk1.party_size :=
  (claim3_cancel_booking_contract db0 7 user1 "Bistro" "REF1234" 1 bk1 rfl).2
    (by decide) reason1 rfl

/-- Claim C5: on a booking owned by the requester, the update endpoint
rejects a cancelled booking with 400 leaving the state unchanged;
otherwise each of the four patchable fields is overwritten exactly when
the form value is non-null (null means unchanged), and no other column
of the booking except updated_at changes. -/
theorem claim5_update_booking_patch_frame (db : DB) (now : Nat) (u : User)
    (rname ref : String) (vd vt : Option Nat) (ps : Option Int) (sr : Option String)
    (b : Booking) (hb : findOwnedBooking db u rname ref = some b) :
    (b.status = "cancelled" →
      update_booking db now u rname ref vd vt ps sr =
        (.error (.http 400 "Cannot update a cancelled booking"), db)) ∧
    (b.status ≠ "cancelled" →
      ∃ l1 l2, db.bookings = l1 ++ b :: l2 ∧
        update_booking db now u rname ref vd vt ps sr =
          (.ok ("Booking updated successfully", updatePatch now vd vt ps sr b),
           { db with bookings := l1 ++ updatePatch now vd vt ps sr b :: l2 }) ∧
        (updatePatch now vd vt ps sr b).visit_date = vd.getD b.visit_date ∧
        (updatePatch now vd vt ps sr b).visit_time = vt.getD b.visit_time ∧
        (updatePatch now vd vt ps sr b).party_size = ps.getD b.party_size ∧
        (∀ s, sr = some s → (updatePatch now vd vt ps sr b).special_requests = some s) ∧
        (sr = none → (updatePatch now vd vt ps sr b).special_requests = b.special_requests) ∧
        (updatePatch now vd vt ps sr b).id = b.id ∧
        (updatePatch now vd vt ps sr b).booking_reference = b.booking_reference ∧
        (updatePatch now vd vt ps sr b).restaurant_id = b.restaurant_id ∧
        (updatePatch now vd vt ps sr b).customer_id = b.customer_id ∧
        (updatePatch now vd vt ps sr b).user_id = b.user_id ∧
        (updatePatch now vd vt ps sr b).channel_code = b.channel_code ∧
        (updatePatch now vd vt ps sr b).is_leave_time_confirmed = b.is_leave_time_confirmed ∧
        (updatePatch now vd vt ps sr b).room_number = b.room_number ∧
        (updatePatch now vd vt ps sr b).status = b.status ∧
        (updatePatch now vd vt ps sr b).cancellation_reason_id = b.cancellation_reason_id ∧
        (updatePatch now vd vt ps sr b).created_at = b.created_at) := by
  constructor
  · intro hc
    have hct : (b.status == "cancelled") = true := by simp [hc]
    simp [update_booking, hb, hct]
  · intro hnc
    have hcf : (b.status == "cancelled") = false := by
      cases hsc : (b.status == "cancelled") with
      | false => rfl
      | true => exact absurd (by simpa using hsc) hnc
    obtain ⟨l1, l2, hsplit, _, hrep⟩ :=
      replaceFirst_decomp (bookingOwnedBy db u rname ref) (updatePatch now vd vt ps sr)
        db.bookings b hb
    refine ⟨l1, l2, hsplit, by simp [update_booking, hb, hcf, hrep],
      rfl, rfl, rfl, ?_, ?_, rfl, rfl, rfl, rfl, rfl, rfl, rfl, rfl, rfl, rfl, rfl⟩
    · rintro s rfl; rfl
    · rintro rfl; rfl

/-- Witness for claim C5: patching only the visit date of REF1234
overwrites that field and leaves every other column (except updated_at)
unchanged. -/
theorem claim5_update_booking_patch_frame_witness :
    ∃ l1 l2, db0.bookings = l1 ++ bk1 :: l2 ∧
      update_booking db0 7 user1 "Bistro" "REF1234" (some 101) none none none =
        (.ok ("Booking updated successfully", updatePatch 7 (some 101) none none none bk1),
         { db0 with bookings := l1 ++ updatePatch 7 (some 101) none none none bk1 :: l2 }) ∧
      (updatePatch 7 (some 101) none none none bk1).visit_date = (some 101).getD bk1.visit_date ∧
      (updatePatch 7 (some 101) none none none bk1).visit_time = none.getD bk1.visit_time ∧
      (updatePatch 7 (some 101) none none none bk1).party_size = none.getD bk1.party_size ∧
      (∀ s, (none : Option String) = some s →
        (updatePatch 7 (some 101) none none none bk1).special_requests = some s) ∧
      ((none : Option String) = none →
        (updatePatch 7 (some 101) none none none bk1).special_requests = bk1.special_requests) ∧
      (updatePatch 7 (some 101) none none none bk1).id = bk1.id ∧
      (updatePatch 7 (some 101) none none none bk1).booking_reference = bk1.booking_reference ∧
      (updatePatch 7 (some 101) none none none bk1).restaurant_id = bk1.restaurant_id ∧
      (updatePatch 7 (some 101) none none none bk1).customer_id = bk1.customer_id ∧
      (updatePatch 7 (some 101) none none none bk1).user_id = bk1.user_id ∧
      (updatePatch 7 (some 101) none none none bk1).channel_code = bk1.channel_code ∧
      (updatePatch 7 (some 101) none none none bk1).is_leave_time_confirmed =
        bk1.is_leave_time_confirmed ∧
      (updatePatch 7 (some 101) none none none bk1).room_number = bk1.room_number ∧
      (updatePatch 7 (some 101) none none none bk1).status = bk1.status ∧
      (updatePatch 7 (some 101) none none none bk1).cancellation_reason_id =
        bk1.cancellation_reason_id ∧
      (updatePatch 7 (some 101) none none none bk1).created_at = bk1.created_at :=
  (claim5_update_booking_patch_frame db0 7 user1 "Bistro" "REF1234"
    (some 101) none none none bk1 rfl).2 (by decide)

/-- Appending a booking with a fresh reference keeps the reference list
Nodup. -/
theorem refs_nodup_snoc (l : List Booking) (nb : Booking)
    (h : (l.map (fun b => b.booking_reference)).Nodup)
    (hfresh : ∀ b ∈ l, b.booking_reference ≠ nb.booking_reference) :
    ((l ++ [nb]).map (fun b => b.booking_reference)).Nodup := by
  rw [List.map_append]
  refine nodup_append_singleton _ _ h ?_
  intro hmem
  rw [List.mem_map] at hmem
  obtain ⟨b, hb, heq⟩ := hmem
  exact hfresh b hb heq

/-- Claim C4: a successfully created booking carries a reference of
exactly 7 characters drawn from the uppercase-letters-and-digits
alphabet that differs from every existing booking reference, so
pairwise distinctness of references is preserved by booking creation
(the only operation that inserts bookings). -/
theorem claim4_booking_reference_unique (db : DB) (now : Nat) (gs : List (Nat → Nat))
    (u : User) (rname : String) (vd vt : Nat) (ps : Int) (cc : String)
    (sr t fn sn mb em : Option String) (resp : CreateResp) (db2 : DB)
    (hwf : RefsUnique db)
    (hsucc : create_booking_with_stripe db now gs u rname vd vt ps cc sr t fn sn mb em =
      some (.ok resp, db2)) :
    resp.booking_reference.length = 7 ∧
    (∀ c ∈ resp.booking_reference.data, c ∈ referenceAlphabet) ∧
    (∀ b ∈ db.bookings, b.booking_reference ≠ resp.booking_reference) ∧
    RefsUnique db2 := by
  cases hr : db.restaurants.find? (fun rr => rr.name == rname) with
  | none =>
    simp [create_booking_with_stripe, hr] at hsucc
  | some restaurant =>
    cases hf : db.customers.find? (fun c => decide (c.user_id = some u.id)) with
    | some c0 =>
      cases ha : allocate_reference gs db.bookings with
      | none => simp [create_booking_with_stripe, hr, hf, ha] at hsucc
      | some r =>
        simp only [create_booking_with_stripe, hr, hf, ha, Option.some.injEq,
          Prod.mk.injEq, Except.ok.injEq] at hsucc
        obtain ⟨rfl, rfl⟩ := hsucc
        obtain ⟨⟨g, _, hgen⟩, hfresh⟩ := allocate_reference_spec gs db.bookings r ha
        subst hgen
        refine ⟨generate_booking_reference_length g,
          generate_booking_reference_chars g, hfresh, ?_⟩
        exact refs_nodup_snoc db.bookings _ hwf hfresh
    | none =>
      cases ha : allocate_reference gs db.bookings with
      | none => simp [create_booking_with_stripe, hr, hf, ha] at hsucc
      | some r =>
        simp only [create_booking_with_stripe, hr, hf, ha, Option.some.injEq,
          Prod.mk.injEq, Except.ok.injEq] at hsucc
        obtain ⟨rfl, rfl⟩ := hsucc
        obtain ⟨⟨g, _, hgen⟩, hfresh⟩ := allocate_reference_spec gs db.bookings r ha
        subst hgen
        refine ⟨generate_booking_reference_length g,
          generate_booking_reference_chars g, hfresh, ?_⟩
        exact refs_nodup_snoc db.bookings _ hwf hfresh

/-- Witness for claim C4: on db0 (one booking REF1234) the constant-zero
stream allocates AAAAAAA, which is fresh, and the state after creation
still has pairwise distinct references. -/
theorem claim4_booking_reference_unique_witness :
    RefsUnique db0 ∧
    createRespEx.booking_reference.length = 7 ∧
    (∀ c ∈ createRespEx.booking_reference.data, c ∈ referenceAlphabet) ∧
    (∀ b ∈ db0.bookings, b.booking_reference ≠ createRespEx.booking_reference) ∧
    RefsUnique dbAfterCreate := by
  have hwf : RefsUnique db0 := by unfold RefsUnique; decide
  have h := claim4_booking_reference_unique db0 0 [fun _ => 0] user1 "Bistro" 100 18 2
    "ONLINE" none none none none none none createRespEx dbAfterCreate hwf rfl
  exact ⟨hwf, h⟩

/-- Appending a customer for a user that had none preserves the
at-most-one-customer-per-user bound. -/
theorem atMostOne_snoc (cs : List Customer) (nc : Customer) (uidNew : Nat)
    (hnc : nc.user_id = some uidNew)
    (hnone : ∀ c ∈ cs, ¬(c.user_id = some uidNew))
    (hpre : ∀ uid : Nat, (cs.filter (fun c => decide (c.user_id = some uid))).length ≤ 1) :
    ∀ uid : Nat, ((cs ++ [nc]).filter (fun c => decide (c.user_id = some uid))).length ≤ 1 := by
  intro uid
  rw [List.filter_append]
  by_cases huid : uid = uidNew
  · subst huid
    have hnil : cs.filter (fun c => decide (c.user_id = some uid)) = [] := by
      rw [List.filter_eq_nil_iff]
      intro a ha
      simpa using hnone a ha
    rw [hnil]
    simp [List.filter_cons, hnc]
  · have hfneg : (decide (nc.user_id = some uid)) = false := by
      rw [hnc]
      simp only [Option.some.injEq, decide_eq_false_iff_not]
      exact fun h => huid h.symm
    simp only [List.filter_cons, hfneg, Bool.false_eq_true, if_false, List.filter_nil,
      List.append_nil]
    exact hpre uid

/-- Claim C8: a successful booking creation inserts exactly one booking,
with status confirmed and user_id the authenticated user; when the user
already has a Customer row it is reused (no customer row added, its id
becomes the booking customer_id), and only when none exists is a single
Customer row with that user id appended -- so at most one Customer row
per user is preserved. -/
theorem claim8_customer_lazy_singleton (db : DB) (now : Nat) (gs : List (Nat → Nat))
    (u : User) (rname : String) (vd vt : Nat) (ps : Int) (cc : String)
    (sr t fn sn mb em : Option String) (resp : CreateResp) (db2 : DB)
    (hsucc : create_booking_with_stripe db now gs u rname vd vt ps cc sr t fn sn mb em =
      some (.ok resp, db2)) :
    (AtMostOneCustomerPerUser db → AtMostOneCustomerPerUser db2) ∧
    ∃ newb, db2.bookings = db.bookings ++ [newb] ∧
      newb.status = "confirmed" ∧ newb.user_id = some u.id ∧
      (∀ c, db.customers.find? (fun c2 => decide (c2.user_id = some u.id)) = some c →
        db2.customers = db.customers ∧ newb.customer_id = c.id) ∧
      (db.customers.find? (fun c2 => decide (c2.user_id = some u.id)) = none →
        ∃ nc, db2.customers = db.customers ++ [nc] ∧ nc.user_id = some u.id ∧
          newb.customer_id = nc.id ∧ (∀ c2 ∈ db.customers, ¬(c2.user_id = some u.id))) := by
  cases hr : db.restaurants.find? (fun rr => rr.name == rname) with
  | none =>
    simp [create_booking_with_stripe, hr] at hsucc
  | some restaurant =>
    cases hf : db.customers.find? (fun c => decide (c.user_id = some u.id)) with
    | some c0 =>
      cases ha : allocate_reference gs db.bookings with
      | none => simp [create_booking_with_stripe, hr, hf, ha] at hsucc
      | some r =>
        simp only [create_booking_with_stripe, hr, hf, ha, Option.some.injEq,
          Prod.mk.injEq, Except.ok.injEq] at hsucc
        obtain ⟨rfl, rfl⟩ := hsucc
        refine ⟨fun hp => hp, ?_⟩
        refine ⟨_, rfl, rfl, rfl, ?_, ?_⟩
        · intro c hc
          obtain rfl := Option.some.inj hc
          exact ⟨rfl, rfl⟩
        · intro h
          cases h
    | none =>
      cases ha : allocate_reference gs db.bookings with
      | none => simp [create_booking_with_stripe, hr, hf, ha] at hsucc
      | some r =>
        simp only [create_booking_with_stripe, hr, hf, ha, Option.some.injEq,
          Prod.mk.injEq, Except.ok.injEq] at hsucc
        obtain ⟨rfl, rfl⟩ := hsucc
        have hnone : ∀ c2 ∈ db.customers, ¬(c2.user_id = some u.id) := by
          intro c2 hc2
          simpa using (List.find?_eq_none.mp hf) c2 hc2
        constructor
        · intro hpre
          exact atMostOne_snoc db.customers _ u.id rfl hnone hpre
        · refine ⟨_, rfl, rfl, rfl, ?_, ?_⟩
          · intro c hc
            cases hc
          · intro _
            exact ⟨_, rfl, rfl, rfl, hnone⟩

/-- Witness for claim C8: user2 has no Customer row in db0; creating a
booking materializes exactly one Customer row for user2, the booking is
confirmed and linked to it, and the bound still holds afterwards. -/
theorem claim8_customer_lazy_singleton_witness :
    AtMostOneCustomerPerUser dbAfterCreate2 ∧
    ∃ newb, dbAfterCreate2.bookings = db0.bookings ++ [newb] ∧
      newb.status = "confirmed" ∧ newb.user_id = some user2.id ∧
      ∃ nc, dbAfterCreate2.customers = db0.customers ++ [nc] ∧
        nc.user_id = some user2.id ∧ newb.customer_id = nc.id := by
  have h := claim8_customer_lazy_singleton db0 0 [fun _ => 0] user2 "Bistro" 100 18 2
    "ONLINE" none none none none none none createRespEx dbAfterCreate2 rfl
  have hpre : AtMostOneCustomerPerUser db0 := fun uid => by
    simpa using List.length_filter_le (fun c => decide (c.user_id = some uid)) db0.customers
  obtain ⟨newb, hbk, hst, huid, _, hlazy⟩ := h.2
  obtain ⟨nc, hcs, hncuid, hcid, _⟩ := hlazy rfl
  exact ⟨h.1 hpre, newb, hbk, hst, huid, nc, hcs, hncuid, hcid⟩

/-- Claim C10: booking creation never consults the availability slot
table -- whatever the slot rows are (absent, closed, or at a time whose
confirmed-booking count is already at the ceiling), a request by an
authenticated user naming an existing restaurant inserts a confirmed
booking whenever the reference allocator yields a fresh reference. -/
theorem claim10_create_booking_ignores_slots (db : DB) (now : Nat) (gs : List (Nat → Nat))
    (u : User) (rname : String) (restaurant : Restaurant) (vd vt : Nat) (ps : Int)
    (cc : String) (sr t fn sn mb em : Option String) (r : String)
    (hrest : db.restaurants.find? (fun rr => rr.name == rname) = some restaurant)
    (halloc : allocate_reference gs db.bookings = some r) :
    ∀ newSlots : List AvailabilitySlot,
      ∃ resp db2 newb,
        create_booking_with_stripe { db with slots := newSlots } now gs u rname vd vt ps
          cc sr t fn sn mb em = some (.ok resp, db2) ∧
        db2.bookings = db.bookings ++ [newb] ∧
        newb.status = "confirmed" ∧ newb.user_id = some u.id ∧
        newb.restaurant_id = restaurant.id ∧ newb.visit_date = vd ∧
        newb.visit_time = vt ∧ newb.party_size = ps ∧
        resp.status = "confirmed" := by
  intro newSlots
  cases hf : db.customers.find? (fun c => decide (c.user_id = some u.id)) with
  | some c0 =>
    have hrun : create_booking_with_stripe { db with slots := newSlots } now gs u rname vd vt ps
        cc sr t fn sn mb em =
      some (.ok { booking_reference := r, booking_id := db.nextBookingId,
                  restaurant := restaurant.name, status := "confirmed" },
        { db with slots := newSlots,
                  bookings := db.bookings ++
                    [{ id := db.nextBookingId, booking_reference := r,
                       restaurant_id := restaurant.id, customer_id := c0.id,
                       user_id := some u.id, visit_date := vd, visit_time := vt,
                       party_size := ps, channel_code := cc, special_requests := sr,
                       is_leave_time_confirmed := false, room_number := none,
                       status := "confirmed", cancellation_reason_id := none,
                       created_at := now, updated_at := now }],
                  nextBookingId := db.nextBookingId + 1 }) := by
      simp [create_booking_with_stripe, hrest, hf, halloc]
    exact ⟨_, _, _, hrun, rfl, rfl, rfl, rfl, rfl, rfl, rfl, rfl⟩
  | none =>
    have hrun : create_booking_with_stripe { db with slots := newSlots } now gs u rname vd vt ps
        cc sr t fn sn mb em =
      some (.ok { booking_reference := r, booking_id := db.nextBookingId,
                  restaurant := restaurant.name, status := "confirmed" },
        { db with slots := newSlots,
                  customers := db.customers ++
                    [{ id := db.nextCustomerId, user_id := some u.id,
                       title := pyOr t u.first_name, first_name := pyOr fn u.first_name,
                       surname := pyOr sn u.last_name, email := pyOr em (some u.email),
                       mobile := pyOr mb u.phone }],
                  bookings := db.bookings ++
                    [{ id := db.nextBookingId, booking_reference := r,
                       restaurant_id := restaurant.id, customer_id := db.nextCustomerId,
                       user_id := some u.id, visit_date := vd, visit_time := vt,
                       party_size := ps, channel_code := cc, special_requests := sr,
                       is_leave_time_confirmed := false, room_number := none,
                       status := "confirmed", cancellation_reason_id := none,
                       created_at := now, updated_at := now }],
                  nextCustomerId := db.nextCustomerId + 1,
                  nextBookingId := db.nextBookingId + 1 }) := by
      simp [create_booking_with_stripe, hrest, hf, halloc]
    exact ⟨_, _, _, hrun, rfl, rfl, rfl, rfl, rfl, rfl, rfl, rfl⟩

/-- Witness for claim C10: on a state with three confirmed bookings at
restaurant 1, date 100, time 18 and a single closed slot at exactly that
time, booking creation at that very date and time still succeeds and
inserts a confirmed booking. -/
theorem claim10_create_booking_ignores_slots_witness :
    confirmedCount { dbAvail with slots := [closedSlot] } 1 100 18 = 3 ∧
    closedSlot.available = false ∧
    ∃ resp db2 newb,
      create_booking_with_stripe { dbAvail with slots := [closedSlot] } 0 [fun _ => 0]
        user1 "Bistro" 100 18 4 "ONLINE" none none none none none none =
        some (.ok resp, db2) ∧
      db2.bookings = dbAvail.bookings ++ [newb] ∧
      newb.status = "confirmed" ∧ newb.user_id = some user1.id ∧
      newb.restaurant_id = rest1.id ∧ newb.visit_date = 100 ∧
      newb.visit_time = 18 ∧ newb.party_size = 4 ∧
      resp.status = "confirmed" := by
  refine ⟨by decide, by decide, ?_⟩
  exact claim10_create_booking_ignores_slots dbAvail 0 [fun _ => 0] user1 "Bistro" rest1
    100 18 4 "ONLINE" none none none none none none "AAAAAAA" rfl rfl [closedSlot]

end RB
